import Mathlib

/-!
Shallow embedding of `src/series1/usbd/usbd_cdc_uart_bridge/src/cdc_gg11.c`,
a USB CDC (packet side) to UART (byte-stream side) bridge driver, together
with theorems checking the specification's claims against the code.

The interrupt handlers of the driver are embedded as pure functions on an
explicit state record `St`.  Besides the C globals
(`usbRxIndex`, `usbBytesReceived`, `uartRxIndex`, `uartRxCount`,
`LastUsbTxCnt`, `dmaRxCompleted`, `usbRxActive`, `dmaTxActive`,
`usbTxActive`, `dmaRxActive`, `cdcLineCoding.dwDTERate`), the state also
records the externally visible hardware configuration the code programs:
which USB read is armed (`usbReadArmed`, set by `USBD_Read` on
`CDC_EP_DATA_OUT`), the in-flight UART TX DMA transfers started by
`LDMA_StartTransfer` on the TX channel (`uartTxRun`, carrying the
`descriptorTx.xfer.srcAddr` buffer slot and the `descriptorTx.xfer.xferCnt`
field value), the in-flight USB IN writes started by `USBD_Write` on
`CDC_EP_DATA_IN` (`usbWriteRun`), whether the UART RX DMA channel is running
(`rxDmaRunning`), the `descriptorRx.xfer.dstAddr` buffer slot (`rxDmaDst`)
and whether the USBTIMER is armed (`timerArmed`).  Buffer slots of the two
double buffers per direction are `Bool` (false = buffer 0, true = buffer 1),
so the C expression `index ^= 1` becomes boolean negation.

Each handler additionally returns the list of side-effecting calls it makes
(`Act`), in source order, so that claims of the form "exactly one transfer
is started" can be stated about a single handler invocation.
-/

namespace Cdc

/-- Full-speed USB bulk endpoint maximum size, `USB_FS_BULK_EP_MAXSIZE`
from the USB stack headers (64 bytes). -/
def USB_FS_BULK_EP_MAXSIZE : Nat := 64

/-- `CDC_BULK_EP_SIZE` (cdc_gg11.c line 117): the max endpoint size. -/
def CDC_BULK_EP_SIZE : Nat := USB_FS_BULK_EP_MAXSIZE

/-- `CDC_USB_RX_BUF_SIZ` (line 118): packet size when receiving on USB. -/
def CDC_USB_RX_BUF_SIZ : Nat := CDC_BULK_EP_SIZE

/-- `CDC_USB_TX_BUF_SIZ` (line 119): packet size when transmitting on USB. -/
def CDC_USB_TX_BUF_SIZ : Nat := 127

/-- `CDC_RX_TIMEOUT` (lines 121-123): a timeout in ms corresponding to 5 char
times on the current baudrate, with a 10 ms minimum:
`SL_MAX(10U, 50000 / (cdcLineCoding.dwDTERate))`.  Unsigned integer
division, with no guard against a zero rate. -/
def CDC_RX_TIMEOUT (dwDTERate : Nat) : Nat := max 10 (50000 / dwDTERate)

/-- The CDC LINE CODING structure `cdcLineCoding_TypeDef` (lines 127-135);
the `dummy` padding byte is omitted as it carries no information. -/
structure LineCoding where
  dwDTERate : Nat
  bCharFormat : Nat
  bParityType : Nat
  bDataBits : Nat
  deriving DecidableEq, Repr

/-- The USB status codes that appear in the driver. -/
inductive UsbStatus where
  | ok
  | reqErr
  | reqUnhandled
  | transferError
  deriving DecidableEq, Repr

/-- The data-bits selection OR-ed into the USART FRAME register; the
`USART_FRAME_DATABITS_*` constants live in the external `em_usart.h` and are
modelled as distinct abstract tags. -/
inductive DataBitsSel where
  | five | six | seven | eight | sixteen
  deriving DecidableEq, Repr

/-- The parity selection OR-ed into the USART FRAME register
(`USART_FRAME_PARITY_*`), abstract tags. -/
inductive ParitySel where
  | parityNone | odd | even
  deriving DecidableEq, Repr

/-- The stop-bits selection OR-ed into the USART FRAME register
(`USART_FRAME_STOPBITS_*`), abstract tags. -/
inductive StopSel where
  | one | oneAndHalf | two
  deriving DecidableEq, Repr

/-- The value programmed into `CDC_UART->FRAME`: the three selections OR-ed
together by `LineCodingReceived`. -/
structure Frame where
  databits : DataBitsSel
  parity : ParitySel
  stopbits : StopSel
  deriving DecidableEq, Repr

/-- Data-bits validation of `LineCodingReceived` (lines 533-546): valid
values are 5, 6, 7, 8 or 16; anything else returns `USB_STATUS_REQ_ERR`. -/
def dataBitsSel (b : Nat) : Option DataBitsSel :=
  if b = 5 then some DataBitsSel.five
  else if b = 6 then some DataBitsSel.six
  else if b = 7 then some DataBitsSel.seven
  else if b = 8 then some DataBitsSel.eight
  else if b = 16 then some DataBitsSel.sixteen
  else none

/-- Parity validation of `LineCodingReceived` (lines 548-561): 0 = None,
1 = Odd, 2 = Even are accepted; 3 = Mark, 4 = Space and anything else
return `USB_STATUS_REQ_ERR`. -/
def paritySel (p : Nat) : Option ParitySel :=
  if p = 0 then some ParitySel.parityNone
  else if p = 1 then some ParitySel.odd
  else if p = 2 then some ParitySel.even
  else none

/-- Stop-bits validation of `LineCodingReceived` (lines 563-572): 0 = 1,
1 = 1.5, 2 = 2 stop bits; anything else returns `USB_STATUS_REQ_ERR`. -/
def stopSel (c : Nat) : Option StopSel :=
  if c = 0 then some StopSel.one
  else if c = 1 then some StopSel.oneAndHalf
  else if c = 2 then some StopSel.two
  else none

/-- The frame value `LineCodingReceived` computes from a line coding, or
`none` when any of the three fields is unsupported.  The baudrate
`dwDTERate` is not inspected. -/
def computeFrame (c : LineCoding) : Option Frame := do
  let db ← dataBitsSel c.bDataBits
  let pa ← paritySel c.bParityType
  let st ← stopSel c.bCharFormat
  pure { databits := db, parity := pa, stopbits := st }

/-- The state relevant to line-coding negotiation: the RAM copy
`cdcLineCoding` (which doubles as the USB EP0 receive buffer) and the UART
hardware configuration programmed at line 575-576 (`CDC_UART->FRAME` and
the baudrate passed to `USART_BaudrateAsyncSet`).  `uartFrame = none`
means the FRAME register still holds its `SerialPortInit` value. -/
structure Dev where
  cdcLineCoding : LineCoding
  uartFrame : Option Frame
  uartBaud : Nat
  deriving DecidableEq, Repr

/-- The negotiation state after `CDC_Init`: `cdcLineCoding` has its static
initializer `{ 115200, 0, 0, 8, 0 }` (lines 161-164) and the UART runs the
`USART_INITASYNC_DEFAULT` configuration (115200 baud). -/
def initDev : Dev :=
  { cdcLineCoding := { dwDTERate := 115200, bCharFormat := 0, bParityType := 0, bDataBits := 8 }
    uartFrame := none
    uartBaud := 115200 }

/-- `LineCodingReceived` (lines 524-581): validates the line coding already
stored in `cdcLineCoding`; on success programs `CDC_UART->FRAME` and the
baudrate and returns `USB_STATUS_OK`, otherwise returns
`USB_STATUS_REQ_ERR` without touching the UART registers. -/
def LineCodingReceived (status : UsbStatus) (xferred : Nat) (d : Dev) : Dev × UsbStatus :=
  if status = UsbStatus.ok ∧ xferred = 7 then
    match computeFrame d.cdcLineCoding with
    | some fr =>
        ({ d with uartFrame := some fr, uartBaud := d.cdcLineCoding.dwDTERate }, UsbStatus.ok)
    | none => (d, UsbStatus.reqErr)
  else (d, UsbStatus.reqErr)

/-- A complete SET_LINE_CODING request: `CDC_SetupCmd` (lines 223-232) arms
`USBD_Read(0, &cdcLineCoding, 7, LineCodingReceived)`, so the data stage
overwrites `cdcLineCoding` with the host payload, after which
`LineCodingReceived` runs as the completion callback. -/
def setLineCoding (host : LineCoding) (d : Dev) : Dev × UsbStatus :=
  LineCodingReceived UsbStatus.ok 7 { d with cdcLineCoding := host }

/-- The bridge state: the C globals of cdc_gg11.c (lines 175-181 plus
`cdcLineCoding.dwDTERate`) together with the externally visible transfer
and timer configuration the handlers program (see the module docstring). -/
structure St where
  usbRxIndex : Bool
  usbBytesReceived : Nat
  uartRxIndex : Bool
  uartRxCount : Nat
  LastUsbTxCnt : Nat
  dmaRxCompleted : Bool
  usbRxActive : Bool
  dmaTxActive : Bool
  usbTxActive : Bool
  dmaRxActive : Bool
  dwDTERate : Nat
  usbReadArmed : Option Bool
  uartTxRun : List (Bool × Nat)
  usbWriteRun : List (Bool × Nat)
  rxDmaRunning : Bool
  rxDmaDst : Bool
  timerArmed : Bool
  deriving DecidableEq, Repr

/-- The side-effecting calls a handler makes, in source order:
`USBD_Read` on the data OUT endpoint (target slot), `LDMA_StartTransfer` on
the UART TX channel (source slot, `xferCnt` field value), `USBD_Write` on
the data IN endpoint (source slot, byte count), `LDMA_StartTransfer` on the
UART RX channel (destination slot), `LDMA_StopTransfer` on the RX channel,
`USBTIMER_Start` (interval in ms) and `USBTIMER_Stop`. -/
inductive Act where
  | usbRead (slot : Bool)
  | uartTxStart (slot : Bool) (xferCnt : Nat)
  | usbWrite (slot : Bool) (count : Nat)
  | rxDmaStart (slot : Bool)
  | rxDmaStop
  | timerStart (ms : Nat)
  | timerStop
  deriving DecidableEq, Repr

/-- `UsbDataReceived` (lines 319-345): on a successful nonempty packet,
flips `usbRxIndex`; if no UART TX DMA is active, programs
`descriptorTx.xfer.xferCnt = xferred - 1`, starts the TX DMA from the
just-filled buffer `usbRxBuffer[usbRxIndex ^ 1]` and re-arms the USB
receive into `usbRxBuffer[usbRxIndex]`; otherwise defers by clearing
`usbRxActive` and recording `usbBytesReceived = xferred`. -/
def UsbDataReceived (status : UsbStatus) (xferred : Nat) (s : St) : St × List Act :=
  if status = UsbStatus.ok ∧ 0 < xferred then
    let s1 : St := { s with usbRxIndex := !s.usbRxIndex }
    if s1.dmaTxActive = false then
      ({ s1 with
          dmaTxActive := true
          uartTxRun := (!s1.usbRxIndex, xferred - 1) :: s1.uartTxRun
          usbReadArmed := some s1.usbRxIndex },
       [Act.uartTxStart (!s1.usbRxIndex) (xferred - 1), Act.usbRead s1.usbRxIndex])
    else
      ({ s1 with usbRxActive := false, usbBytesReceived := xferred }, [])
  else (s, [])

/-- `DmaTxComplete` (lines 354-381): if a USB packet was received while the
TX DMA ran (`usbRxActive = false`), starts the next TX DMA with
`xferCnt = usbBytesReceived - 1` from `usbRxBuffer[usbRxIndex ^ 1]` and
re-arms the USB receive into `usbRxBuffer[usbRxIndex]` (setting
`usbRxActive`); otherwise clears `dmaTxActive`. -/
def DmaTxComplete (s : St) : St × List Act :=
  if s.usbRxActive = false then
    ({ s with
        uartTxRun := (!s.usbRxIndex, s.usbBytesReceived - 1) :: s.uartTxRun
        usbRxActive := true
        usbReadArmed := some s.usbRxIndex },
     [Act.uartTxStart (!s.usbRxIndex) (s.usbBytesReceived - 1), Act.usbRead s.usbRxIndex])
  else
    ({ s with dmaTxActive := false }, [])

/-- `UsbDataTransmitted` (lines 393-419): on success, if the UART RX DMA is
not active, writes `uartRxBuffer[uartRxIndex ^ 1]` (`uartRxCount` bytes) to
USB, records `LastUsbTxCnt`, restarts the UART RX DMA and the timer and
zeroes `uartRxCount`; otherwise clears `usbTxActive`.  Note that this path
restarts the RX DMA without updating `descriptorRx.xfer.dstAddr`
(`rxDmaDst` is left unchanged), unlike `DmaRxComplete`. -/
def UsbDataTransmitted (status : UsbStatus) (s : St) : St × List Act :=
  if status = UsbStatus.ok then
    if s.dmaRxActive = false then
      ({ s with
          usbWriteRun := (!s.uartRxIndex, s.uartRxCount) :: s.usbWriteRun
          LastUsbTxCnt := s.uartRxCount
          dmaRxActive := true
          dmaRxCompleted := true
          rxDmaRunning := true
          uartRxCount := 0
          timerArmed := true },
       [Act.usbWrite (!s.uartRxIndex) s.uartRxCount, Act.rxDmaStart s.rxDmaDst,
        Act.timerStart (CDC_RX_TIMEOUT s.dwDTERate)])
    else
      ({ s with usbTxActive := false }, [])
  else (s, [])

/-- `DmaRxComplete` (lines 428-467): flips `uartRxIndex`; computes the byte
count (`CDC_USB_TX_BUF_SIZ` on a capacity completion, else capacity minus
`LDMA_TransferRemainingCount`, passed here as `numRemaining`).  If no USB
write is active, writes `uartRxBuffer[uartRxIndex ^ 1]` to USB, records
`LastUsbTxCnt`, sets `descriptorRx.xfer.dstAddr = uartRxBuffer[uartRxIndex]`,
restarts the RX DMA and the timer and zeroes `uartRxCount`; otherwise
clears `dmaRxActive` and stops the timer. -/
def DmaRxComplete (numRemaining : Nat) (s : St) : St × List Act :=
  let s1 : St := { s with uartRxIndex := !s.uartRxIndex }
  let cnt : Nat :=
    if s1.dmaRxCompleted then CDC_USB_TX_BUF_SIZ
    else CDC_USB_TX_BUF_SIZ - numRemaining
  let s2 : St := { s1 with uartRxCount := cnt }
  if s2.usbTxActive = false then
    ({ s2 with
        usbTxActive := true
        usbWriteRun := (!s2.uartRxIndex, cnt) :: s2.usbWriteRun
        LastUsbTxCnt := cnt
        dmaRxCompleted := true
        rxDmaDst := s2.uartRxIndex
        rxDmaRunning := true
        uartRxCount := 0
        timerArmed := true },
     [Act.usbWrite (!s2.uartRxIndex) cnt, Act.rxDmaStart s2.uartRxIndex,
      Act.timerStart (CDC_RX_TIMEOUT s.dwDTERate)])
  else
    ({ s2 with dmaRxActive := false, timerArmed := false }, [Act.timerStop])

/-- `UartRxTimeout` (lines 476-510): samples the RX DMA progress
(`numReceived = CDC_USB_TX_BUF_SIZ - numRemaining`).  If nothing was
received and the last USB transmit was exactly `CDC_BULK_EP_SIZE`, or if
something was received and the count is unchanged since the previous tick
(`numReceived == uartRxCount`), stops the RX DMA, clears `dmaRxCompleted`
and invokes `DmaRxComplete`; otherwise records the new count and re-arms
the timer. -/
def UartRxTimeout (numRemaining : Nat) (s : St) : St × List Act :=
  let numReceived : Nat := CDC_USB_TX_BUF_SIZ - numRemaining
  if numReceived = 0 ∧ s.LastUsbTxCnt = CDC_BULK_EP_SIZE then
    let s1 : St := { s with rxDmaRunning := false, dmaRxCompleted := false }
    let p := DmaRxComplete numRemaining s1
    (p.1, Act.rxDmaStop :: p.2)
  else if 0 < numReceived ∧ numReceived = s.uartRxCount then
    let s1 : St := { s with rxDmaRunning := false, dmaRxCompleted := false }
    let p := DmaRxComplete numRemaining s1
    (p.1, Act.rxDmaStop :: p.2)
  else
    ({ s with uartRxCount := numReceived, timerArmed := true },
     [Act.timerStart (CDC_RX_TIMEOUT s.dwDTERate)])

/-- The USB device states that `CDC_StateChangeEvent` distinguishes. -/
inductive USBDState where
  | stNone | attached | powered | defaulted | addressed | configured | suspended
  deriving DecidableEq, Repr

/-- `CDC_StateChangeEvent` (lines 266-305): entering CONFIGURED initializes
the cursors and flags, arms the first USB receive, starts the UART RX DMA
(with the descriptor destination as previously programmed) and the timer.
Leaving CONFIGURED to a non-SUSPENDED state, or entering SUSPENDED, stops
the timer and both LDMA channels; the flags are not touched there. -/
def CDC_StateChangeEvent (oldState newState : USBDState) (s : St) : St × List Act :=
  if newState = USBDState.configured then
    ({ s with
        usbRxIndex := false
        usbRxActive := true
        dmaTxActive := false
        usbReadArmed := some false
        uartRxIndex := false
        LastUsbTxCnt := 0
        uartRxCount := 0
        dmaRxActive := true
        usbTxActive := false
        dmaRxCompleted := true
        rxDmaRunning := true
        timerArmed := true },
     [Act.usbRead false, Act.rxDmaStart s.rxDmaDst,
      Act.timerStart (CDC_RX_TIMEOUT s.dwDTERate)])
  else if oldState = USBDState.configured ∧ newState ≠ USBDState.suspended then
    ({ s with timerArmed := false, rxDmaRunning := false, uartTxRun := [] },
     [Act.timerStop, Act.rxDmaStop])
  else if newState = USBDState.suspended then
    ({ s with timerArmed := false, rxDmaRunning := false, uartTxRun := [] },
     [Act.timerStop, Act.rxDmaStop])
  else (s, [])

/-- The state after `CDC_Init` (reset values of the C globals; `DmaSetup`
points `descriptorRx.xfer.dstAddr` at `uartRxBuffer[0]`). -/
def initSt : St :=
  { usbRxIndex := false
    usbBytesReceived := 0
    uartRxIndex := false
    uartRxCount := 0
    LastUsbTxCnt := 0
    dmaRxCompleted := false
    usbRxActive := false
    dmaTxActive := false
    usbTxActive := false
    dmaRxActive := false
    dwDTERate := 115200
    usbReadArmed := none
    uartTxRun := []
    usbWriteRun := []
    rxDmaRunning := false
    rxDmaDst := false
    timerArmed := false }

/-- The state right after USB configuration (the CONFIGURED branch of
`CDC_StateChangeEvent` applied to the post-init state). -/
def activateSt : St :=
  (CDC_StateChangeEvent USBDState.addressed USBDState.configured initSt).1

/-- The completion and timer events that can be delivered to the bridge.
`usbRx` and `usbTxDone` carry the transfer status; `usbRx` carries the
packet length; `timeout` carries the RX DMA remaining count that
`LDMA_TransferRemainingCount` reports at tick time; `setRate` models the
EP0 data stage of SET_LINE_CODING overwriting `cdcLineCoding.dwDTERate`
(which happens before, and regardless of, validation). -/
inductive Ev where
  | usbRx (status : UsbStatus) (xferred : Nat)
  | dmaTxDone
  | dmaRxDone
  | usbTxDone (status : UsbStatus)
  | timeout (numRemaining : Nat)
  | setRate (r : Nat)
  deriving DecidableEq, Repr

/-- One event step: the event consumes the hardware resource whose
completion it signals (armed USB read, in-flight UART TX DMA, running RX
DMA, in-flight USB write, armed timer) and then runs the corresponding
handler from cdc_gg11.c.  A capacity completion of the RX DMA reports a
remaining count of 0. -/
def step (s : St) (e : Ev) : St × List Act :=
  match e with
  | Ev.usbRx status x => UsbDataReceived status x { s with usbReadArmed := none }
  | Ev.dmaTxDone => DmaTxComplete { s with uartTxRun := s.uartTxRun.tail }
  | Ev.dmaRxDone => DmaRxComplete 0 { s with rxDmaRunning := false }
  | Ev.usbTxDone status => UsbDataTransmitted status { s with usbWriteRun := s.usbWriteRun.tail }
  | Ev.timeout rem => UartRxTimeout rem { s with timerArmed := false }
  | Ev.setRate r => ({ s with dwDTERate := r }, [])

/-- Whether an event can physically occur in a state: a completion can only
fire for a transfer that is actually armed or in flight, a tick only while
the timer is armed, and reported byte counts are bounded by the armed
transfer sizes. -/
def enabled (s : St) (e : Ev) : Bool :=
  match e with
  | Ev.usbRx _ x => s.usbReadArmed.isSome && decide (x ≤ CDC_USB_RX_BUF_SIZ)
  | Ev.dmaTxDone => !s.uartTxRun.isEmpty
  | Ev.dmaRxDone => s.rxDmaRunning
  | Ev.usbTxDone _ => !s.usbWriteRun.isEmpty
  | Ev.timeout rem => s.timerArmed && decide (rem ≤ CDC_USB_TX_BUF_SIZ)
  | Ev.setRate _ => true

/-- Run a sequence of events, collecting all side-effecting calls. -/
def run (s : St) : List Ev → St × List Act
  | [] => (s, [])
  | e :: es =>
    let p := step s e
    let q := run p.1 es
    (q.1, p.2 ++ q.2)

/-- The `xferCnt` values of the UART TX DMA transfers started in an action
list. -/
def uartTxCounts (acts : List Act) : List Nat :=
  acts.filterMap fun a =>
    match a with
    | Act.uartTxStart _ c => some c
    | _ => none

/-- The byte counts of the USB IN writes started in an action list. -/
def usbWriteCounts (acts : List Act) : List Nat :=
  acts.filterMap fun a =>
    match a with
    | Act.usbWrite _ c => some c
    | _ => none

/-- A configured state in which a UART TX DMA drain is in flight. -/
def sTxBusy : St := { activateSt with dmaTxActive := true }

/-- A configured state whose last USB transmit was exactly
`CDC_BULK_EP_SIZE` bytes long. -/
def s5 : St := { activateSt with LastUsbTxCnt := CDC_BULK_EP_SIZE }

/-- A configured state with a 1000 baud line coding. -/
def s9 : St := { activateSt with dwDTERate := 1000 }

/-- A configured state in which a 10-byte USB write is in flight while the
UART RX DMA is also running. -/
def c7St : St :=
  { activateSt with
      dmaRxActive := true
      usbTxActive := true
      usbWriteRun := [(false, 10)]
      LastUsbTxCnt := 10 }

/-- A configured state with both drain-in-flight flags set. -/
def c8St : St := { activateSt with dmaTxActive := true, usbTxActive := true }

/-- C1 counterexample: a SET_LINE_CODING request carrying 7 data bits and
mark parity is rejected with `USB_STATUS_REQ_ERR` and the programmed UART
frame and baudrate are untouched, but the stored line-coding state is NOT
the same as before the request: the data stage already overwrote
`cdcLineCoding` with the rejected values, refuting the claim that no state
is mutated by a rejected request. -/
theorem C1_counterexample :
    (setLineCoding { dwDTERate := 9600, bCharFormat := 0, bParityType := 3, bDataBits := 7 }
      initDev).2 = UsbStatus.reqErr
    ∧ (setLineCoding { dwDTERate := 9600, bCharFormat := 0, bParityType := 3, bDataBits := 7 }
        initDev).1.uartFrame = initDev.uartFrame
    ∧ (setLineCoding { dwDTERate := 9600, bCharFormat := 0, bParityType := 3, bDataBits := 7 }
        initDev).1.uartBaud = initDev.uartBaud
    ∧ ¬ (setLineCoding { dwDTERate := 9600, bCharFormat := 0, bParityType := 3, bDataBits := 7 }
        initDev).1.cdcLineCoding = initDev.cdcLineCoding := by
  decide

/-- C1 (amended): a rejected SET_LINE_CODING request leaves the programmed
UART frame and baudrate unchanged (the previously negotiated configuration
stays in effect on the wire), though the RAM copy `cdcLineCoding` is
overwritten by the host payload before validation; a supported
configuration such as 9600 baud, 8 data bits, no parity, 1 stop bit is
accepted and programmed. -/
theorem C1_reject_preserves_uart (d : Dev) (host : LineCoding)
    (hrej : (setLineCoding host d).2 = UsbStatus.reqErr) :
    (setLineCoding host d).1.uartFrame = d.uartFrame
    ∧ (setLineCoding host d).1.uartBaud = d.uartBaud
    ∧ (setLineCoding { dwDTERate := 9600, bCharFormat := 0, bParityType := 0, bDataBits := 8 }
        d).2 = UsbStatus.ok
    ∧ (setLineCoding { dwDTERate := 9600, bCharFormat := 0, bParityType := 0, bDataBits := 8 }
        d).1.uartBaud = 9600 := by
  cases h : computeFrame host with
  | none => refine ⟨?_, ?_, rfl, rfl⟩ <;> simp [setLineCoding, LineCodingReceived, h]
  | some fr =>
      exfalso
      have hok : (setLineCoding host d).2 = UsbStatus.ok := by
        simp [setLineCoding, LineCodingReceived, h]
      rw [hok] at hrej
      exact absurd hrej (by simp)

/-- C1 witness: the amended theorem applied to the initial device state and
the rejected 7-data-bit mark-parity request. -/
theorem C1_reject_preserves_uart_witness :
    (setLineCoding { dwDTERate := 9600, bCharFormat := 0, bParityType := 3, bDataBits := 7 }
      initDev).1.uartBaud = initDev.uartBaud
    ∧ (setLineCoding { dwDTERate := 9600, bCharFormat := 0, bParityType := 0, bDataBits := 8 }
        initDev).2 = UsbStatus.ok :=
  ⟨(C1_reject_preserves_uart initDev
      { dwDTERate := 9600, bCharFormat := 0, bParityType := 3, bDataBits := 7 }
      (by decide)).2.1,
   (C1_reject_preserves_uart initDev
      { dwDTERate := 9600, bCharFormat := 0, bParityType := 3, bDataBits := 7 }
      (by decide)).2.2.1⟩

/-- C2: for every successful USB packet of N bytes (N > 0), the UART TX DMA
started for that packet is programmed with transfer count field
`xferCnt = N - 1`: immediately by `UsbDataReceived` when no TX DMA is in
flight, or by `DmaTxComplete` from the recorded `usbBytesReceived` when the
packet was deferred. -/
theorem C2_uart_tx_frame_offset (s : St) (N : Nat) (hN : 0 < N) :
    (s.dmaTxActive = false →
      uartTxCounts (step s (Ev.usbRx UsbStatus.ok N)).2 = [N - 1])
    ∧ (s.dmaTxActive = true →
      (step s (Ev.usbRx UsbStatus.ok N)).1.usbBytesReceived = N
      ∧ uartTxCounts (step (step s (Ev.usbRx UsbStatus.ok N)).1 Ev.dmaTxDone).2 = [N - 1]) := by
  constructor
  · intro h
    simp [step, UsbDataReceived, hN, h, uartTxCounts]
  · intro h
    simp [step, UsbDataReceived, DmaTxComplete, hN, h, uartTxCounts]

/-- C2 witness: a 10-byte packet in the configured state starts a UART TX
DMA with `xferCnt = 9`. -/
theorem C2_uart_tx_frame_offset_witness :
    uartTxCounts (step activateSt (Ev.usbRx UsbStatus.ok 10)).2 = [9] :=
  (C2_uart_tx_frame_offset activateSt 10 (by decide)).1 (by decide)

/-- C3 (code bug): from the configured initial state, after a capacity
completion of the UART RX DMA, a second capacity completion while the first
USB write is still in flight, and then the completion of that USB write,
the UART RX DMA is restarted by `UsbDataTransmitted` with the stale
descriptor destination slot 1 — the very slot the USB write just started by
the same handler is draining (and not the cursor slot 0), because
`UsbDataTransmitted` does not update `descriptorRx.xfer.dstAddr`.  So a
slot is concurrently a fill target and the source of an in-flight drain. -/
theorem C3_fill_drain_overlap :
    enabled activateSt Ev.dmaRxDone = true
    ∧ enabled (step activateSt Ev.dmaRxDone).1 Ev.dmaRxDone = true
    ∧ enabled (run activateSt [Ev.dmaRxDone, Ev.dmaRxDone]).1 (Ev.usbTxDone UsbStatus.ok) = true
    ∧ (run activateSt [Ev.dmaRxDone, Ev.dmaRxDone, Ev.usbTxDone UsbStatus.ok]).1.rxDmaRunning
        = true
    ∧ (run activateSt [Ev.dmaRxDone, Ev.dmaRxDone, Ev.usbTxDone UsbStatus.ok]).1.rxDmaDst
        = true
    ∧ (run activateSt [Ev.dmaRxDone, Ev.dmaRxDone, Ev.usbTxDone UsbStatus.ok]).1.usbWriteRun
        = [(true, CDC_USB_TX_BUF_SIZ)]
    ∧ (run activateSt [Ev.dmaRxDone, Ev.dmaRxDone, Ev.usbTxDone UsbStatus.ok]).1.uartRxIndex
        = false := by
  decide

/-- C4: if a second USB packet of N bytes completes while a UART TX DMA is
in flight, `UsbDataReceived` records the byte count, arms no new USB
receive (so no further packet event is enabled), and the subsequent
`DmaTxComplete` starts the drain with count field `N - 1` and re-arms the
USB receive. -/
theorem C4_backpressure (s : St) (N : Nat) (hN : 0 < N) (hTx : s.dmaTxActive = true) :
    (step s (Ev.usbRx UsbStatus.ok N)).2 = []
    ∧ (step s (Ev.usbRx UsbStatus.ok N)).1.usbBytesReceived = N
    ∧ (step s (Ev.usbRx UsbStatus.ok N)).1.usbRxActive = false
    ∧ (step s (Ev.usbRx UsbStatus.ok N)).1.usbReadArmed = none
    ∧ (∀ st x, enabled (step s (Ev.usbRx UsbStatus.ok N)).1 (Ev.usbRx st x) = false)
    ∧ uartTxCounts (step (step s (Ev.usbRx UsbStatus.ok N)).1 Ev.dmaTxDone).2 = [N - 1]
    ∧ (step (step s (Ev.usbRx UsbStatus.ok N)).1 Ev.dmaTxDone).1.usbReadArmed
        = some (step s (Ev.usbRx UsbStatus.ok N)).1.usbRxIndex
    ∧ (step (step s (Ev.usbRx UsbStatus.ok N)).1 Ev.dmaTxDone).1.usbRxActive = true := by
  refine ⟨?_, ?_, ?_, ?_, ?_, ?_, ?_, ?_⟩ <;>
    simp [step, UsbDataReceived, DmaTxComplete, enabled, hN, hTx, uartTxCounts]

/-- C4 witness: a 7-byte deferred packet is recorded and drained with count
field 6 when the in-flight TX DMA completes. -/
theorem C4_backpressure_witness :
    (step sTxBusy (Ev.usbRx UsbStatus.ok 7)).1.usbBytesReceived = 7
    ∧ uartTxCounts (step (step sTxBusy (Ev.usbRx UsbStatus.ok 7)).1 Ev.dmaTxDone).2 = [6] :=
  ⟨(C4_backpressure sTxBusy 7 (by decide) (by decide)).2.1,
   (C4_backpressure sTxBusy 7 (by decide) (by decide)).2.2.2.2.2.1⟩

/-- C5: if the last USB transmit was exactly `CDC_BULK_EP_SIZE` bytes and
no USB write is in flight, an idle tick observing zero received bytes stops
the RX DMA and routes through `DmaRxComplete` to exactly one `USBD_Write`
of length 0; the following idle tick issues no further write. -/
theorem C5_zlp_once (s : St)
    (hLast : s.LastUsbTxCnt = CDC_BULK_EP_SIZE)
    (hTx : s.usbTxActive = false) :
    Act.rxDmaStop ∈ (step s (Ev.timeout CDC_USB_TX_BUF_SIZ)).2
    ∧ usbWriteCounts (step s (Ev.timeout CDC_USB_TX_BUF_SIZ)).2 = [0]
    ∧ (step s (Ev.timeout CDC_USB_TX_BUF_SIZ)).1.LastUsbTxCnt = 0
    ∧ (step s (Ev.timeout CDC_USB_TX_BUF_SIZ)).1.timerArmed = true
    ∧ usbWriteCounts
        (step (step s (Ev.timeout CDC_USB_TX_BUF_SIZ)).1 (Ev.timeout CDC_USB_TX_BUF_SIZ)).2
        = [] := by
  refine ⟨?_, ?_, ?_, ?_, ?_⟩ <;>
    simp [step, UartRxTimeout, DmaRxComplete, usbWriteCounts, hLast, hTx,
      CDC_USB_TX_BUF_SIZ, CDC_BULK_EP_SIZE, USB_FS_BULK_EP_MAXSIZE]

/-- C5 witness: the zero-length-terminator scenario evaluated in the
configured state whose last transmit was 64 bytes. -/
theorem C5_zlp_once_witness :
    usbWriteCounts (step s5 (Ev.timeout CDC_USB_TX_BUF_SIZ)).2 = [0]
    ∧ usbWriteCounts
        (step (step s5 (Ev.timeout CDC_USB_TX_BUF_SIZ)).1 (Ev.timeout CDC_USB_TX_BUF_SIZ)).2
        = [] :=
  ⟨(C5_zlp_once s5 (by decide) (by decide)).2.1,
   (C5_zlp_once s5 (by decide) (by decide)).2.2.2.2⟩

/-- C6: if k bytes (0 < k < capacity) have accumulated at the first idle
tick of a fresh stretch (`uartRxCount = 0`) and the count is unchanged at
the second tick, the first tick issues no USB write and records k, the
second tick flushes exactly one USB write of exactly k bytes, and a third
tick with the line idle issues no further write. -/
theorem C6_idle_flush (s : St) (k : Nat) (hk0 : 0 < k) (hk : k < CDC_USB_TX_BUF_SIZ)
    (hTx : s.usbTxActive = false) (hCnt : s.uartRxCount = 0) :
    usbWriteCounts (step s (Ev.timeout (CDC_USB_TX_BUF_SIZ - k))).2 = []
    ∧ (step s (Ev.timeout (CDC_USB_TX_BUF_SIZ - k))).1.uartRxCount = k
    ∧ usbWriteCounts
        (step (step s (Ev.timeout (CDC_USB_TX_BUF_SIZ - k))).1
          (Ev.timeout (CDC_USB_TX_BUF_SIZ - k))).2 = [k]
    ∧ usbWriteCounts
        (step (step (step s (Ev.timeout (CDC_USB_TX_BUF_SIZ - k))).1
          (Ev.timeout (CDC_USB_TX_BUF_SIZ - k))).1 (Ev.timeout CDC_USB_TX_BUF_SIZ)).2
        = [] := by
  have hk1 : k < 127 := hk
  have hrecv : 127 - (127 - k) = k := by omega
  have hne : k ≠ 0 := by omega
  by_cases h64 : k = 64 <;>
    refine ⟨?_, ?_, ?_, ?_⟩ <;>
      simp [step, UartRxTimeout, DmaRxComplete, usbWriteCounts, hrecv, hne, hk0, hTx, hCnt,
        h64, CDC_USB_TX_BUF_SIZ, CDC_BULK_EP_SIZE, USB_FS_BULK_EP_MAXSIZE]

/-- C6 witness: 5 bytes accumulated and then idle: the second tick flushes
exactly 5 bytes, the first and third tick flush nothing. -/
theorem C6_idle_flush_witness :
    usbWriteCounts (step activateSt (Ev.timeout (CDC_USB_TX_BUF_SIZ - 5))).2 = []
    ∧ usbWriteCounts
        (step (step activateSt (Ev.timeout (CDC_USB_TX_BUF_SIZ - 5))).1
          (Ev.timeout (CDC_USB_TX_BUF_SIZ - 5))).2 = [5] :=
  ⟨(C6_idle_flush activateSt 5 (by decide) (by decide) (by decide) (by decide)).1,
   (C6_idle_flush activateSt 5 (by decide) (by decide) (by decide) (by decide)).2.2.1⟩

/-- C7 counterexample: with the UART RX DMA active, a USB write of 10 bytes
(less than `CDC_BULK_EP_SIZE`) completing leaves the idle timer armed and
performs no call at all: `UsbDataTransmitted` does not stop the timer,
refuting the claim that it stops the idle timer when the flushed count is
below the maximum packet size. -/
theorem C7_counterexample :
    c7St.dmaRxActive = true
    ∧ c7St.LastUsbTxCnt < CDC_BULK_EP_SIZE
    ∧ c7St.timerArmed = true
    ∧ (step c7St (Ev.usbTxDone UsbStatus.ok)).1.usbTxActive = false
    ∧ (step c7St (Ev.usbTxDone UsbStatus.ok)).1.timerArmed = true
    ∧ (step c7St (Ev.usbTxDone UsbStatus.ok)).2 = [] := by
  decide

/-- C7 (amended): when `UsbDataTransmitted` runs with the UART RX DMA still
active, it only clears `usbTxActive` (marks the drain inactive); it makes
no external call and leaves all other state, including the idle timer,
unchanged.  The timer stop on this path is performed elsewhere, by the
deferred branch of `DmaRxComplete`. -/
theorem C7_tx_done_marks_inactive (s : St) (hRx : s.dmaRxActive = true) :
    (step s (Ev.usbTxDone UsbStatus.ok)).1
      = { s with usbTxActive := false, usbWriteRun := s.usbWriteRun.tail }
    ∧ (step s (Ev.usbTxDone UsbStatus.ok)).2 = [] := by
  constructor <;> simp [step, UsbDataTransmitted, hRx]

/-- C7 witness: the amended theorem applied to the in-flight-write state. -/
theorem C7_tx_done_marks_inactive_witness :
    (step c7St (Ev.usbTxDone UsbStatus.ok)).2 = [] :=
  (C7_tx_done_marks_inactive c7St (by decide)).2

/-- C8 counterexample: deactivating (CONFIGURED to ADDRESSED) from a state
with both drain-in-flight flags set leaves both flags set: the deactivate
branch does not clear the transfer-in-flight flags, refuting that part of
the claimed end state. -/
theorem C8_counterexample :
    (CDC_StateChangeEvent USBDState.configured USBDState.addressed c8St).1.dmaTxActive = true
    ∧ (CDC_StateChangeEvent USBDState.configured USBDState.addressed c8St).1.usbTxActive
        = true := by
  decide

/-- C8 (amended): the deactivate transition is idempotent — running it
twice produces exactly the state of running it once — and it disarms the
timer and leaves no UART DMA transfer running; the transfer-in-flight
flags, however, are not cleared by it (they are reinitialized only by the
next activation). -/
theorem C8_deactivate_idempotent (s : St) :
    (CDC_StateChangeEvent USBDState.configured USBDState.addressed
        (CDC_StateChangeEvent USBDState.configured USBDState.addressed s).1).1
      = (CDC_StateChangeEvent USBDState.configured USBDState.addressed s).1
    ∧ (CDC_StateChangeEvent USBDState.configured USBDState.addressed s).1.timerArmed = false
    ∧ (CDC_StateChangeEvent USBDState.configured USBDState.addressed s).1.rxDmaRunning = false
    ∧ (CDC_StateChangeEvent USBDState.configured USBDState.addressed s).1.uartTxRun = [] := by
  refine ⟨?_, ?_, ?_, ?_⟩ <;> simp [CDC_StateChangeEvent]

/-- C9: with a configured baudrate r > 0, every timer arm performed by any
completion handler, tick or state change uses the interval
`CDC_RX_TIMEOUT` recomputed from the current line coding, namely
max(10, 50000 / r) milliseconds. -/
theorem C9_timer_interval (s : St) (r : Nat) (hr : s.dwDTERate = r) (hpos : 0 < r) :
    CDC_RX_TIMEOUT r = max 10 (50000 / r)
    ∧ (∀ e ms, Act.timerStart ms ∈ (step s e).2 → ms = CDC_RX_TIMEOUT r)
    ∧ (∀ os ns ms, Act.timerStart ms ∈ (CDC_StateChangeEvent os ns s).2
        → ms = CDC_RX_TIMEOUT r) := by
  subst hr
  refine ⟨rfl, ?_, ?_⟩
  · intro e ms hm
    cases e <;>
      simp only [step, UsbDataReceived, DmaTxComplete, UsbDataTransmitted, DmaRxComplete,
        UartRxTimeout] at hm <;>
      repeat' split at hm
    all_goals simp_all
  · intro os ns ms hm
    simp only [CDC_StateChangeEvent] at hm
    repeat' split at hm
    all_goals simp_all

/-- C9 witness: at 1000 baud an idle tick re-arms the timer with
50 = max(10, 50000 / 1000) milliseconds. -/
theorem C9_timer_interval_witness : (50 : Nat) = CDC_RX_TIMEOUT 1000 :=
  (C9_timer_interval s9 1000 (by decide) (by decide)).2.1
    (Ev.timeout CDC_USB_TX_BUF_SIZ) 50 (by decide)

/-- C10: `LineCodingReceived` never inspects `dwDTERate` — changing the
rate of any line coding never changes the computed frame, and the coding
with rate 0 is accepted and programs baudrate 0 — while the idle-timeout
computation `CDC_RX_TIMEOUT` divides 50000 by the stored rate with no zero
guard; so only the unenforced precondition `dwDTERate > 0` keeps that
division well-defined in the C source. -/
theorem C10_rate_never_validated :
    (∀ c r, computeFrame { c with dwDTERate := r } = computeFrame c)
    ∧ (setLineCoding { dwDTERate := 0, bCharFormat := 0, bParityType := 0, bDataBits := 8 }
        initDev).2 = UsbStatus.ok
    ∧ (setLineCoding { dwDTERate := 0, bCharFormat := 0, bParityType := 0, bDataBits := 8 }
        initDev).1.uartBaud = 0
    ∧ (∀ r, CDC_RX_TIMEOUT r = max 10 (50000 / r)) :=
  ⟨fun _ _ => rfl, by decide, by decide, fun _ => rfl⟩

end Cdc
